import Mathlib

/-!
Shallow embedding of `ParcelProcessor.py` (El Dorado County parcel processor).

The heart of the script is the ownership/address parser inside `updateParcels`
(lines 179-375), which classifies each record by its four mailing-address
columns (`mail_addr4` down to `mail_addr1`) plus the owner-name column and
writes six output fields (owner, address, city, state, zip, country).  The
parser drives five regular expressions; they are embedded below with Python
`re.search` semantics (leftmost start position wins, lazy `.+?` prefers the
shortest group, greedy quantifiers prefer the longest, with backtracking).

Python values are modelled as follows: text cells are `String`s; a record the
loop skips via `continue` is `ParseResult.skipped`; an uncaught exception
(`AttributeError` from `.group` on a failed match, or `NameError` from
reading a variable no branch assigned before the `row[...] = ...` writes at
lines 366-371) is `ParseResult.error`.  Variables are treated per record,
i.e. unassigned until some branch of the current iteration assigns them.
-/

namespace ParcelProcessor

/-! ## Character classes of Python `re` (ASCII range, as used by the data) -/

/-- Python `\s` (ASCII whitespace). -/
def isSpaceChar (c : Char) : Bool :=
  c = ' ' || c = '\t' || c = '\n' || c = '\r' || c = '\x0b' || c = '\x0c'

/-- Python `\d` (ASCII digits). -/
def isDigitChar (c : Char) : Bool :=
  '0' ≤ c && c ≤ '9'

/-- The character class `[A-Z]`. -/
def isUpperAZ (c : Char) : Bool :=
  'A' ≤ c && c ≤ 'Z'

/-- Python `.` without `re.DOTALL`: any character except a newline. -/
def isDotChar (c : Char) : Bool :=
  c ≠ '\n'

/-- Python `\w` (ASCII word characters). -/
def isWordChar (c : Char) : Bool :=
  ('a' ≤ c && c ≤ 'z') || ('A' ≤ c && c ≤ 'Z') || ('0' ≤ c && c ≤ '9') || c = '_'

/-! ## Python string primitives used by the parser -/

/-- `p.isPrefixOf s` for char lists, modelling Python `s.startswith(p)`. -/
def startsWithList : List Char → List Char → Bool
  | [], _ => true
  | _ :: _, [] => false
  | p :: ps, c :: cs => p = c && startsWithList ps cs

/-- Python `s.startswith(pat)`. -/
def pyStartsWith (s pat : String) : Bool :=
  startsWithList pat.data s.data

/-- Membership of `pat` as a contiguous substring, at any position. -/
def containsList (pat : List Char) : List Char → Bool
  | [] => startsWithList pat []
  | c :: cs => startsWithList pat (c :: cs) || containsList pat cs

/-- Python `pat in s` (substring containment). -/
def containsSub (s pat : String) : Bool :=
  containsList pat.data s.data

/-- Python `str.lower` on the ASCII letters (the only case the data exercises). -/
def pyLowerChar (c : Char) : Char :=
  if isUpperAZ c then Char.ofNat (c.toNat + 32) else c

/-- Python `s.lower()`. -/
def pyLower (s : String) : String :=
  ⟨s.data.map pyLowerChar⟩

/-- Python `s[1:]`. -/
def pyDropFirst (s : String) : String :=
  ⟨s.data.drop 1⟩

/-! ## A tiny backtracking engine for the shape `(.+?)\s<tail>`

All three "city/state/zip"-style regexes of the script start with a lazy
non-empty group followed by `\s`.  `dotThenTailAcc` walks the candidate
group-1 text one character at a time (shortest first, as `.+?` does),
and after every character tests whether a whitespace plus the given tail
matcher completes the match.  `searchFrom` supplies `re.search`'s scan over
start positions (leftmost start wins). -/

def dotThenTailAcc {α : Type} (tail : List Char → Option α)
    (acc : List Char) : List Char → Option (List Char × α)
  | [] => none
  | c :: rest =>
    if isDotChar c then
      match rest with
      | sp :: rest2 =>
        if isSpaceChar sp then
          match tail rest2 with
          | some r => some (acc ++ [c], r)
          | none => dotThenTailAcc tail (acc ++ [c]) rest
        else dotThenTailAcc tail (acc ++ [c]) rest
      | [] => none
    else none

def searchFrom {α : Type} (tail : List Char → Option α) :
    List Char → Option (List Char × α)
  | [] => none
  | c :: rest =>
    match dotThenTailAcc tail [] (c :: rest) with
    | some r => some r
    | none => searchFrom tail rest

/-! ## `cityStateZipRegex = r'(.+?)\s([A-Z]{1,2})\s(?=\d)(.*)'` (line 78) -/

/-- The suffix `\s(?=\d)(.*)` of the city/state/zip pattern: a whitespace
whose successor is a digit; group 3 is the greedy `.*` from that digit on. -/
def cszFinish : List Char → Option (List Char)
  | sp :: rest =>
    if isSpaceChar sp then
      match rest with
      | d :: _ => if isDigitChar d then some (rest.takeWhile isDotChar) else none
      | [] => none
    else none
  | [] => none

/-- `([A-Z]{1,2})\s(?=\d)(.*)`: the state group is greedy, so two letters are
tried before one. -/
def cszTail : List Char → Option (List Char × List Char)
  | a :: b :: rest =>
    if isUpperAZ a then
      if isUpperAZ b then
        match cszFinish rest with
        | some z => some ([a, b], z)
        | none =>
          match cszFinish (b :: rest) with
          | some z => some ([a], z)
          | none => none
      else
        match cszFinish (b :: rest) with
        | some z => some ([a], z)
        | none => none
    else none
  | _ => none

/-- `re.search(cityStateZipRegex, s)`, returning `(city, state, zip)` =
groups 1-3, or `none` when the pattern does not occur. -/
def cszSearch (s : String) : Option (String × String × String) :=
  match searchFrom cszTail s.data with
  | some (g1, st, z) => some (⟨g1⟩, ⟨st⟩, ⟨z⟩)
  | none => none

/-! ## `addressRegex = r'(\d{1,5}\D+.+)'` (line 80)

Group 1 wraps the whole pattern, so a successful search returns the digits
together with everything after them (up to the end of the line). -/

/-- Drop the trailing run of newlines (where `.+` can no longer reach). -/
def stripTrailingNewlines (l : List Char) : List Char :=
  (l.reverse.dropWhile (fun c => c = '\n')).reverse

/-- Match `(\d{1,5}\D+.+)` anchored at the head of `l`.  A digit run longer
than five leaves a digit after any `{1,5}` choice, so `\D+` can never start
and the position fails.  Otherwise `\D+` grabs the maximal non-digit run and
gives characters back to `.+` only when it would otherwise reach the end. -/
def addrAt (l : List Char) : Option (List Char) :=
  let ds := l.takeWhile isDigitChar
  if ds.length = 0 then none
  else if 5 < ds.length then none
  else
    let r1 := l.drop ds.length
    let nd := r1.takeWhile (fun c => !(isDigitChar c))
    if nd.length = 0 then none
    else
      match r1.drop nd.length with
      | c :: rest => some (ds ++ nd ++ List.takeWhile isDotChar (c :: rest))
      | [] =>
        let st := stripTrailingNewlines nd
        if 2 ≤ st.length then some (ds ++ st) else none

def addrSearchList : List Char → Option (List Char)
  | [] => none
  | c :: rest =>
    match addrAt (c :: rest) with
    | some g => some g
    | none => addrSearchList rest

/-- `re.search(addressRegex, s)`, returning group 1 (the entire match). -/
def addrSearch (s : String) : Option String :=
  match addrSearchList s.data with
  | some g => some ⟨g⟩
  | none => none

/-! ## `poBoxRegex = r'([^x]+)\W(P\s*O BOX\W*[0-9]{1,6})'` (line 79) -/

/-- Match `P\s*O BOX\W*[0-9]{1,6}` anchored at the head, returning group 2.
`\s*` must end exactly where the literal `O` starts and `\W*` exactly where
the digits start, so both are deterministic; `[0-9]{1,6}` keeps at most six
digits. -/
def poBoxTail : List Char → Option (List Char)
  | 'P' :: rest =>
    let ws := rest.takeWhile isSpaceChar
    (match rest.drop ws.length with
     | 'O' :: ' ' :: 'B' :: 'O' :: 'X' :: r3 =>
       let nw := r3.takeWhile (fun c => !(isWordChar c))
       let ds := (r3.drop nw.length).takeWhile isDigitChar
       if ds.length = 0 then none
       else some ('P' :: (ws ++ 'O' :: ' ' :: 'B' :: 'O' :: 'X' :: (nw ++ ds.take 6)))
     | _ => none)
  | _ => none

/-- Greedy group 1: try the length `n` candidate (characters `0..n-1` of `l`,
all known to avoid `'x'`), demanding a `\W` separator and then `poBoxTail`;
on failure shrink, as Python backtracks a greedy `+`. -/
def poBoxTryLen (l : List Char) : Nat → Option (List Char)
  | 0 => none
  | n + 1 =>
    match l.drop (n + 1) with
    | c :: rest =>
      if isWordChar c then poBoxTryLen l n
      else
        match poBoxTail rest with
        | some g => some g
        | none => poBoxTryLen l n
    | [] => poBoxTryLen l n

def poBoxAt (l : List Char) : Option (List Char) :=
  poBoxTryLen l ((l.takeWhile (fun c => c ≠ 'x')).length)

def poBoxSearchList : List Char → Option (List Char)
  | [] => none
  | c :: rest =>
    match poBoxAt (c :: rest) with
    | some g => some g
    | none => poBoxSearchList rest

/-- `re.search(poBoxRegex, s)`, returning group 2 (the PO-box portion). -/
def poBoxSearch (s : String) : Option String :=
  match poBoxSearchList s.data with
  | some g => some ⟨g⟩
  | none => none

/-! ## `canadaRegex = r'(.+?)\s([A-Z]{1,2})\s(CANADA)\s(.*)'` (line 81) -/

/-- The suffix `\s(CANADA)\s(.*)` after the state letters. -/
def canadaFinish : List Char → Option (List Char)
  | sp :: 'C' :: 'A' :: 'N' :: 'A' :: 'D' :: 'A' :: sp2 :: rest =>
    if isSpaceChar sp && isSpaceChar sp2 then some (rest.takeWhile isDotChar) else none
  | _ => none

def canadaTail : List Char → Option (List Char × List Char)
  | a :: b :: rest =>
    if isUpperAZ a then
      if isUpperAZ b then
        match canadaFinish rest with
        | some z => some ([a, b], z)
        | none =>
          match canadaFinish (b :: rest) with
          | some z => some ([a], z)
          | none => none
      else
        match canadaFinish (b :: rest) with
        | some z => some ([a], z)
        | none => none
    else none
  | _ => none

/-- `re.search(canadaRegex, s)`: `(city, state, zip)` = groups 1, 2, 4 (group
3 is the literal `CANADA`). -/
def canadaSearch (s : String) : Option (String × String × String) :=
  match searchFrom canadaTail s.data with
  | some (g1, st, z) => some (⟨g1⟩, ⟨st⟩, ⟨z⟩)
  | none => none

/-! ## `brazilRegex = r'(.+?)\s(BRAZIL)\s(.*)'` (line 82) -/

/-- The suffix `(BRAZIL)\s(.*)` after group 1's whitespace. -/
def brazilTail : List Char → Option (List Char)
  | 'B' :: 'R' :: 'A' :: 'Z' :: 'I' :: 'L' :: sp :: rest =>
    if isSpaceChar sp then some (rest.takeWhile isDotChar) else none
  | _ => none

/-- `re.search(brazilRegex, s)`: `(city, zip)` = groups 1, 3 (group 2 is the
literal `BRAZIL`). -/
def brazilSearch (s : String) : Option (String × String) :=
  match searchFrom brazilTail s.data with
  | some (g1, z) => some (⟨g1⟩, ⟨z⟩)
  | none => none

/-! ## Data model of the parsing loop (lines 179-375)

A raw record supplies `owner_name` = `row[0]`, `mail_addr1..4` =
`row[1]..row[4]`, and `prcl_id` = `row[11]`.  The loop writes the six fields
`owner, owner_address, owner_city, owner_state, owner_zip, owner_country`
(`row[5]..row[10]`, lines 366-371). -/

/-- The six output columns of one record (`row[5]..row[10]`). -/
structure NormalizedOwnership where
  owner : String
  address : String
  city : String
  state : String
  zip : String
  country : String
deriving DecidableEq

/-- Outcome of one loop iteration: the six fields were written (`ok`), the
iteration was abandoned by `continue` (`skipped`, line 195), or an uncaught
exception was raised — `AttributeError` from `.group` on a failed match, or
`NameError` from a variable no branch assigned (`error`). -/
inductive ParseResult where
  | ok (r : NormalizedOwnership)
  | skipped
  | error
deriving DecidableEq

/-- `true` exactly when the record produced a fully assigned output row. -/
def ParseResult.isOk : ParseResult → Bool
  | .ok _ => true
  | _ => false

/-- `countriesList = ['japan']` (line 85). -/
def countriesList : List String := ["japan"]

/-- Branch of the ladder when `mail_addr4` is non-blank (lines 185-222). -/
def parseAddr4 (ownerName line1 line2 line3 line4 : String) : ParseResult :=
  -- line 186: if row[4] != 'UNKNOWN' and row[4].lower() not in countriesList
  if line4 ≠ "UNKNOWN" ∧ countriesList.contains (pyLower line4) = false then
    match cszSearch line4 with
    | none => ParseResult.skipped  -- line 195: continue
    | some (city, state, zipCode) =>
      -- lines 197-205: country = '', address from mail_addr3
      if pyStartsWith line3 "PO" || pyStartsWith line3 "P O" then
        ParseResult.ok ⟨ownerName ++ " " ++ line1 ++ " " ++ line2, line3, city, state, zipCode, ""⟩
      else if containsSub line3 "PO BOX" || containsSub line3 "P O BOX" ||
          containsSub line3 "P.O. BOX" then
        ParseResult.ok ⟨ownerName ++ " " ++ line1 ++ " " ++ line2, line3, city, state, zipCode, ""⟩
      else
        match addrSearch line3 with
        | none => ParseResult.error  -- line 205: add.group(1) on a failed search
        | some a =>
          ParseResult.ok ⟨ownerName ++ " " ++ line1 ++ " " ++ line2, a, city, state, zipCode, ""⟩
  -- line 209: elif row[4].lower() in countriesList
  else if countriesList.contains (pyLower line4) = true then
    ParseResult.ok ⟨ownerName, line1, line2, line3, "", line4⟩
  -- lines 216-222: the remaining case is row[4] == 'UNKNOWN'
  else
    ParseResult.ok ⟨ownerName, "", "", "", "", ""⟩

/-- Branch of the ladder when `mail_addr4` is blank and `mail_addr3` is
non-blank (lines 225-267). -/
def parseAddr3 (ownerName line1 line2 line3 : String) : ParseResult :=
  match cszSearch line3 with
  -- lines 231-237: unparseable mail_addr3 is taken as a country name
  | none => ParseResult.ok ⟨ownerName, line1, line2, "", "", line3⟩
  | some (city, state, zipCode) =>
    -- lines 240-244: strip one leading space from mail_addr2
    let row2 := if pyStartsWith line2 " " then pyDropFirst line2 else line2
    if pyStartsWith row2 "PO" || pyStartsWith row2 "P O" || pyStartsWith row2 "P.O." then
      ParseResult.ok ⟨ownerName ++ " " ++ line1, row2, city, state, zipCode, ""⟩
    else if containsSub row2 "PO BOX" || containsSub row2 "P O BOX" ||
        pyStartsWith row2 "ONE " || pyStartsWith row2 "TWO " then
      ParseResult.ok ⟨ownerName ++ " " ++ line1, row2, city, state, zipCode, ""⟩
    else
      match addrSearch row2 with
      | none => ParseResult.ok ⟨ownerName ++ " " ++ line1, "None", city, state, zipCode, ""⟩  -- line 262
      | some a => ParseResult.ok ⟨ownerName ++ " " ++ line1, a, city, state, zipCode, ""⟩

/-- Final branch of the ladder (lines 299-363): `mail_addr3/4` blank, owner
name present and not the USA literal, `mail_addr1` non-blank. -/
def parseAddr2 (ownerName line1 line2 : String) : ParseResult :=
  if line2 = " " then
    -- lines 301-307
    ParseResult.ok ⟨ownerName, line1, "", "", "", ""⟩
  else
    match cszSearch line2 with
    | none =>
      -- lines 315-327: the two foreign-address ifs run in sequence; neither
      -- assigns `address`, so a successful parse still dies with NameError
      -- at the `row[6] = address` write (line 367).
      if containsSub line2 "CANADA" then
        match canadaSearch line2 with
        | none => ParseResult.error  -- line 318: .group on a failed search
        | some _ =>
          if containsSub line2 "BRAZIL" then
            match brazilSearch line2 with
            | none => ParseResult.error  -- line 324
            | some _ => ParseResult.error  -- NameError: address unbound
          else ParseResult.error  -- NameError: address unbound
      else if containsSub line2 "BRAZIL" then
        match brazilSearch line2 with
        | none => ParseResult.error  -- line 324
        | some _ => ParseResult.error  -- NameError: address unbound
      else
        -- neither country matched: city/state/zip/country/address all unbound
        ParseResult.error
    | some (city, state, zipCode) =>
      -- lines 329-360
      let row1 := if pyStartsWith line1 " " then pyDropFirst line1 else line1
      if pyStartsWith row1 "PO" || pyStartsWith row1 "P.O." ||
          pyStartsWith row1 "P O" || pyStartsWith row1 "P  O" then
        ParseResult.ok ⟨ownerName, line1, city, state, zipCode, ""⟩  -- line 341 uses raw row[1]
      else if containsSub row1 "PO BOX" || containsSub row1 "P O BOX" then
        match poBoxSearch row1 with
        | none => ParseResult.ok ⟨ownerName, row1, city, state, zipCode, ""⟩
        | some g2 => ParseResult.ok ⟨ownerName, g2, city, state, zipCode, ""⟩
      else
        match addrSearch row1 with
        | none => ParseResult.ok ⟨ownerName, row1, city, state, zipCode, ""⟩  -- line 357
        | some a =>
          if pyStartsWith row1 "ONE" then
            ParseResult.ok ⟨ownerName, row1, city, state, zipCode, ""⟩
          else ParseResult.ok ⟨ownerName, a, city, state, zipCode, ""⟩

/-- One iteration of the parsing loop (lines 181-374): the guard ladder over
`mail_addr4`, `mail_addr3`, the owner name, and `mail_addr1`, where a column
counts as blank exactly when it equals the one-space string. -/
def parseRecord (ownerName line1 line2 line3 line4 : String) : ParseResult :=
  if line4 ≠ " " then  -- line 184
    parseAddr4 ownerName line1 line2 line3 line4
  else if line3 ≠ " " then  -- line 225
    parseAddr3 ownerName line1 line2 line3
  else if ownerName = "UNITED STATES OF AMERICA" then  -- line 270
    match cszSearch line2 with
    | none => ParseResult.ok ⟨ownerName, line1, "", "", "", ""⟩
    | some (city, state, zipCode) => ParseResult.ok ⟨ownerName, line1, city, state, zipCode, ""⟩
  else if ownerName = " " then  -- line 283
    ParseResult.ok ⟨"", "", "", "", "", ""⟩
  else if line1 = " " then  -- line 290
    ParseResult.ok ⟨ownerName, "", "", "", "", ""⟩
  else  -- line 299
    parseAddr2 ownerName line1 line2

/-- The guard ladder alone (lines 184, 225, 270, 283, 290, 299), numbering
which branch an input record selects: 1 = `mail_addr4`, 2 = `mail_addr3`,
3 = United-States-of-America owner, 4 = blank owner, 5 = blank `mail_addr1`,
6 = `mail_addr2`. -/
def branchTaken (ownerName line1 line2 line3 line4 : String) : Nat :=
  if line4 ≠ " " then 1
  else if line3 ≠ " " then 2
  else if ownerName = "UNITED STATES OF AMERICA" then 3
  else if ownerName = " " then 4
  else if line1 = " " then 5
  else 6

/-! ## Legacy parcel-id derivation (lines 379-382)

`row[1] = row[0][:6] + row[0][-2:]`, a pure function of the `prcl_id` text.
Python slices truncate instead of failing, which the `List.take`/`List.drop`
translation reproduces (`Nat` subtraction bottoms out at zero exactly where
Python clamps a negative start index). -/

/-- `prcl_id_join` from `prcl_id`: `s[:6] + s[-2:]`. -/
def derivePrclIdJoin (prclId : String) : String :=
  ⟨prclId.data.take 6 ++ prclId.data.drop (prclId.data.length - 2)⟩

/-! ## Orchestration skeleton

The freshness decision of `main` (lines 448-464) compares the remote and the
local newest `poly_creat` values after both have been converted to aware
`America/Los_Angeles` datetimes (lines 451-457); aware datetimes compare by
the instant they denote, modelled here as an integer.  `updateParcels`
(lines 158-170, 386-411) aborts to a dedicated notification when the
extracted feature class is empty and otherwise truncates and appends the
destination dataset before the success notification. -/

inductive UpdateAction where
  | runUpdateParcels
  | stopScript
deriving DecidableEq

/-- Lines 460-464: `if sltLastUpdate != edcLastUpdate: updateParcels(...)
else: stop`.  Both arguments are the normalized timestamps. -/
def updateDecision (edcLastUpdate sltLastUpdate : Int) : UpdateAction :=
  if sltLastUpdate ≠ edcLastUpdate then UpdateAction.runUpdateParcels
  else UpdateAction.stopScript

/-- Destination-dataset mutations `updateParcels` can perform. -/
inductive DestOp where
  | truncate  -- line 386: arcpy.TruncateTable_management
  | append    -- line 388: arcpy.Append_management
deriving DecidableEq

/-- Observable outcome of a run of `updateParcels` past the extraction:
which destination mutations ran, in order, and which email subjects went
out. -/
structure UpdateRunOutcome where
  destOps : List DestOp
  emailSubjects : List String
deriving DecidableEq

/-- Line 161. -/
def emptyDataSubject : String :=
  "PRODUCTION ERROR - Automated email: EDC parcel data is blank"

/-- Line 403. -/
def successSubject : String :=
  "PRODUCTION - Automated email: El Dorado County Parcels Successfully Updated"

/-- Effect skeleton of `updateParcels` after the extraction produced
`recordCount` records: line 159 compares the textual count with `'0'` and
returns after the empty-data email (lines 160-170); otherwise the
destination is truncated (line 386) then appended (line 388) and the
success email is sent (lines 402-411). -/
def updateParcelsEffects (recordCount : Nat) : UpdateRunOutcome :=
  if Nat.repr recordCount = "0" then
    ⟨[], [emptyDataSubject]⟩
  else
    ⟨[DestOp.truncate, DestOp.append], [successSubject]⟩

/-! ## Helper lemmas -/

/-- The `mail_addr3` branch never executes `continue`. -/
theorem parseAddr3_not_skipped (o l1 l2 l3 : String) :
    parseAddr3 o l1 l2 l3 ≠ ParseResult.skipped := by
  intro h
  unfold parseAddr3 at h
  split at h
  · exact ParseResult.noConfusion h
  · simp only [] at h
    repeat' split at h
    all_goals exact ParseResult.noConfusion h

/-- The `mail_addr2` branch never executes `continue`. -/
theorem parseAddr2_not_skipped (o l1 l2 : String) :
    parseAddr2 o l1 l2 ≠ ParseResult.skipped := by
  intro h
  unfold parseAddr2 at h
  split at h
  · exact ParseResult.noConfusion h
  · split at h
    · repeat' split at h
      all_goals exact ParseResult.noConfusion h
    · simp only [] at h
      repeat' split at h
      all_goals exact ParseResult.noConfusion h

/-- Within the `mail_addr4` branch, `continue` fires exactly when the value
is neither the sentinel nor a known country and the city/state/zip pattern
fails. -/
theorem parseAddr4_skipped_iff (o l1 l2 l3 l4 : String) :
    parseAddr4 o l1 l2 l3 l4 = ParseResult.skipped ↔
      (l4 ≠ "UNKNOWN" ∧ countriesList.contains (pyLower l4) = false ∧
        cszSearch l4 = none) := by
  unfold parseAddr4
  repeat' split
  all_goals simp_all

/-- A record is skipped by the loop exactly when its `mail_addr4` is
non-blank, not `UNKNOWN`, not a known country, and fails the city/state/zip
pattern. -/
theorem parseRecord_skipped_iff (o l1 l2 l3 l4 : String) :
    parseRecord o l1 l2 l3 l4 = ParseResult.skipped ↔
      (l4 ≠ " " ∧ l4 ≠ "UNKNOWN" ∧ countriesList.contains (pyLower l4) = false ∧
        cszSearch l4 = none) := by
  unfold parseRecord
  split
  next h4 =>
    rw [parseAddr4_skipped_iff]
    simp [h4]
  next h4 =>
    have h4e : l4 = " " := by push_neg at h4; exact h4
    repeat' split
    all_goals simp_all [parseAddr3_not_skipped, parseAddr2_not_skipped]

/-! ## Claim theorems -/

/-- C1 (counterexample): the record with owner name `SMITH JOHN`, blank
`mail_addr1/2`, `mail_addr3 = "MAIN ST"` and `mail_addr4 = "RENO NV 89501"`
does not produce a `NormalizedOwnership`: the city/state/zip pattern matches
`mail_addr4`, none of the PO-box tests fire, the address pattern fails on
`MAIN ST`, and line 205 calls `.group(1)` on `None`, raising
`AttributeError`. -/
theorem parse_error_counterexample :
    parseRecord "SMITH JOHN" " " " " "MAIN ST" "RENO NV 89501" = ParseResult.error ∧
    (parseRecord "SMITH JOHN" " " " " "MAIN ST" "RENO NV 89501").isOk = false := by
  decide

/-- C1 (amended): the parse always terminates, but it is not a total
function into `NormalizedOwnership`: besides returning a fully assigned
record it can skip the record (the `continue` at line 195, exactly when
`mail_addr4` is non-blank, not `UNKNOWN`, not a known country, and fails the
city/state/zip pattern) or raise (failed `.group` calls and unassigned
variables, modelled by `ParseResult.error`). -/
theorem parse_not_total_characterization (o l1 l2 l3 l4 : String) :
    ((∃ r, parseRecord o l1 l2 l3 l4 = ParseResult.ok r) ∨
      parseRecord o l1 l2 l3 l4 = ParseResult.skipped ∨
      parseRecord o l1 l2 l3 l4 = ParseResult.error) ∧
    (parseRecord o l1 l2 l3 l4 = ParseResult.skipped ↔
      (l4 ≠ " " ∧ l4 ≠ "UNKNOWN" ∧ countriesList.contains (pyLower l4) = false ∧
        cszSearch l4 = none)) := by
  refine ⟨?_, parseRecord_skipped_iff o l1 l2 l3 l4⟩
  cases h : parseRecord o l1 l2 l3 l4 with
  | ok r => exact Or.inl ⟨r, rfl⟩
  | skipped => exact Or.inr (Or.inl rfl)
  | error => exact Or.inr (Or.inr rfl)

/-- C2 (counterexample): for `mail_addr4 = "SOUTH LAKE TAHOE CA 96150"` and
`mail_addr3 = "123 MAIN ST"` the returned address is `"123 MAIN ST"` — the
single group of `addressRegex` wraps the whole pattern, digits included — so
the parse does not return the record with address `"MAIN ST"` that the claim
describes. -/
theorem address_number_stripped_counterexample :
    parseRecord "X" " " " " "123 MAIN ST" "SOUTH LAKE TAHOE CA 96150" =
      ParseResult.ok ⟨"X    ", "123 MAIN ST", "SOUTH LAKE TAHOE", "CA", "96150", ""⟩ ∧
    parseRecord "X" " " " " "123 MAIN ST" "SOUTH LAKE TAHOE CA 96150" ≠
      ParseResult.ok ⟨"X    ", "MAIN ST", "SOUTH LAKE TAHOE", "CA", "96150", ""⟩ := by
  decide

/-- C2 (amended): that input yields city `SOUTH LAKE TAHOE`, state `CA`, zip
`96150`, country empty — and address `"123 MAIN ST"`: the street-number
pattern matches but its group spans the entire match, so the leading number
is kept, not stripped. -/
theorem address_number_kept :
    parseRecord "X" " " " " "123 MAIN ST" "SOUTH LAKE TAHOE CA 96150" =
      ParseResult.ok ⟨"X    ", "123 MAIN ST", "SOUTH LAKE TAHOE", "CA", "96150", ""⟩ ∧
    addrSearch "123 MAIN ST" = some "123 MAIN ST" ∧
    cszSearch "SOUTH LAKE TAHOE CA 96150" =
      some ("SOUTH LAKE TAHOE", "CA", "96150") := by
  decide

/-- C3 (counterexample): for `mail_addr4 = "NOWHERE"` (non-blank, not
`UNKNOWN`, not a known country, city/state/zip pattern fails) the loop skips
the record via `continue` instead of returning owner = owner fragment with
the other fields empty. -/
theorem unparseable_line4_counterexample :
    parseRecord "ACME LLC" " " " " " " "NOWHERE" = ParseResult.skipped ∧
    (parseRecord "ACME LLC" " " " " " " "NOWHERE").isOk = false ∧
    parseRecord "ACME LLC" " " " " " " "NOWHERE" ≠
      ParseResult.ok ⟨"ACME LLC", "", "", "", "", ""⟩ := by
  decide

/-- C3 (amended): for every record whose `mail_addr4` is non-blank, not the
`UNKNOWN` sentinel, not a known country, and failing the city/state/zip
pattern, the parse skips the record entirely (`continue`, line 195): no
output fields are written at all, rather than an owner-only record. -/
theorem unparseable_line4_skips (o l1 l2 l3 l4 : String) (h4 : l4 ≠ " ")
    (hu : l4 ≠ "UNKNOWN") (hc : countriesList.contains (pyLower l4) = false)
    (hz : cszSearch l4 = none) :
    parseRecord o l1 l2 l3 l4 = ParseResult.skipped :=
  (parseRecord_skipped_iff o l1 l2 l3 l4).mpr ⟨h4, hu, hc, hz⟩

/-- C3 (witness): a concrete record of that shape is skipped. -/
theorem unparseable_line4_skips_witness :
    parseRecord "ACME LLC" "A" "B" "C" "XYZPDQ" = ParseResult.skipped :=
  unparseable_line4_skips "ACME LLC" "A" "B" "C" "XYZPDQ"
    (by decide) (by decide) (by decide) (by decide)

/-- C4 (counterexample): for `mail_addr4 = "UNKNOWN"` the parse returns
owner = owner fragment with all other fields empty (lines 216-222), not the
country/state/city/address assignment from lines 209-215 that the claim
states. -/
theorem unknown_sentinel_counterexample :
    parseRecord "ACME" "L1" "L2" "L3" "UNKNOWN" =
      ParseResult.ok ⟨"ACME", "", "", "", "", ""⟩ ∧
    parseRecord "ACME" "L1" "L2" "L3" "UNKNOWN" ≠
      ParseResult.ok ⟨"ACME", "L1", "L2", "L3", "", "UNKNOWN"⟩ := by
  decide

/-- C4 (amended): only a `mail_addr4` that lower-cases into the
known-country set gets country = `mail_addr4`, state = `mail_addr3`,
city = `mail_addr2`, address = `mail_addr1`, owner = owner fragment, zip
empty; the sentinel `UNKNOWN` instead yields owner = owner fragment with all
other fields empty. -/
theorem known_country_line4 :
    (∀ o l1 l2 l3 l4 : String, countriesList.contains (pyLower l4) = true →
      parseRecord o l1 l2 l3 l4 = ParseResult.ok ⟨o, l1, l2, l3, "", l4⟩) ∧
    (∀ o l1 l2 l3 : String,
      parseRecord o l1 l2 l3 "UNKNOWN" = ParseResult.ok ⟨o, "", "", "", "", ""⟩) := by
  constructor
  · intro o l1 l2 l3 l4 h
    have hne : l4 ≠ " " := by
      intro e
      rw [e] at h
      exact absurd h (by decide)
    have hmem : pyLower l4 ∈ countriesList := by
      simpa using h
    simp [parseRecord, parseAddr4, hne, hmem]
  · intro o l1 l2 l3
    have h1 : ("UNKNOWN" : String) ≠ " " := by decide
    have h2 : pyLower "UNKNOWN" ∉ countriesList := by decide
    simp [parseRecord, parseAddr4, h1, h2]

/-- C4 (witness): `mail_addr4 = "JAPAN"` hits the known-country branch. -/
theorem known_country_line4_witness :
    parseRecord "A" "B" "C" "D" "JAPAN" =
      ParseResult.ok ⟨"A", "B", "C", "D", "", "JAPAN"⟩ :=
  known_country_line4.1 "A" "B" "C" "D" "JAPAN" (by decide)

/-- C5 (counterexample): the all-blank record owned by
`UNITED STATES OF AMERICA` does reach the United-States branch (ladder
position 3): its guard at line 270 tests only the owner-name column, and the
parse writes a full record. -/
theorem usa_branch_reached_counterexample :
    branchTaken "UNITED STATES OF AMERICA" " " " " " " " " = 3 ∧
    (parseRecord "UNITED STATES OF AMERICA" " " " " " " " ").isOk = true := by
  decide

/-- C5 (amended): with all four mailing lines blank and owner fragment
`UNITED STATES OF AMERICA`, the United-States branch is selected — its guard
requires only blank `mail_addr4`/`mail_addr3` and that owner value, with no
condition on `mail_addr1` — and the output keeps address = `mail_addr1`
(the one-space blank), all remaining fields empty. -/
theorem usa_branch_guard :
    parseRecord "UNITED STATES OF AMERICA" " " " " " " " " =
      ParseResult.ok ⟨"UNITED STATES OF AMERICA", " ", "", "", "", ""⟩ ∧
    branchTaken "UNITED STATES OF AMERICA" " " " " " " " " = 3 ∧
    (∀ o l1 l2 l3 l4 : String,
      branchTaken o l1 l2 l3 l4 = 3 ↔
        (l4 = " " ∧ l3 = " " ∧ o = "UNITED STATES OF AMERICA")) := by
  refine ⟨by decide, by decide, ?_⟩
  intro o l1 l2 l3 l4
  unfold branchTaken
  split_ifs <;> simp_all

/-- C6: the freshness decision of `main` (lines 460-464) compares the two
normalized timestamps for bare equality: equal values stop the script, any
mismatch — in either direction, including the local value being ahead of the
remote one — runs the full `updateParcels` reload. -/
theorem update_decision_any_mismatch :
    (∀ edcLastUpdate sltLastUpdate : Int,
      updateDecision edcLastUpdate sltLastUpdate = UpdateAction.stopScript ↔
        sltLastUpdate = edcLastUpdate) ∧
    (∀ edcLastUpdate sltLastUpdate : Int,
      updateDecision edcLastUpdate sltLastUpdate = UpdateAction.runUpdateParcels ↔
        sltLastUpdate ≠ edcLastUpdate) ∧
    updateDecision 100 200 = UpdateAction.runUpdateParcels ∧
    updateDecision 200 100 = UpdateAction.runUpdateParcels ∧
    updateDecision 100 100 = UpdateAction.stopScript := by
  refine ⟨?_, ?_, by decide, by decide, by decide⟩ <;>
    (intro e s; unfold updateDecision; split_ifs <;> simp_all)

/-- C7: a zero-record extraction sends the dedicated empty-data notification
and performs no destination mutation at all — no truncate, no append — and
that notification is distinct from the success notification. -/
theorem empty_extraction_no_mutation :
    updateParcelsEffects 0 = ⟨[], [emptyDataSubject]⟩ ∧
    (updateParcelsEffects 0).destOps = [] ∧
    emptyDataSubject ≠ successSubject := by
  decide

/-- C8: for a parcel id of length at least 8 the derived join key is the
first six characters followed by the last two (8 characters in total), and
`derive "060123045601" = "06012301"`. -/
theorem derive_join_key_len8 (s : String) (h : 8 ≤ s.data.length) :
    (derivePrclIdJoin s).data = s.data.take 6 ++ s.data.drop (s.data.length - 2) ∧
    (derivePrclIdJoin s).data.length = 8 ∧
    (derivePrclIdJoin s).data.take 6 = s.data.take 6 ∧
    (derivePrclIdJoin s).data.drop 6 = s.data.drop (s.data.length - 2) ∧
    derivePrclIdJoin "060123045601" = "06012301" := by
  have h6 : (s.data.take 6).length = 6 := by
    rw [List.length_take]
    omega
  refine ⟨rfl, ?_, ?_, ?_, by decide⟩
  · show (s.data.take 6 ++ s.data.drop (s.data.length - 2)).length = 8
    rw [List.length_append, List.length_take, List.length_drop]
    omega
  · show (s.data.take 6 ++ s.data.drop (s.data.length - 2)).take 6 = s.data.take 6
    calc (s.data.take 6 ++ s.data.drop (s.data.length - 2)).take 6
        = (s.data.take 6 ++ s.data.drop (s.data.length - 2)).take
            ((s.data.take 6).length) := by rw [h6]
      _ = s.data.take 6 := List.take_left _ _
  · show (s.data.take 6 ++ s.data.drop (s.data.length - 2)).drop 6 =
      s.data.drop (s.data.length - 2)
    calc (s.data.take 6 ++ s.data.drop (s.data.length - 2)).drop 6
        = (s.data.take 6 ++ s.data.drop (s.data.length - 2)).drop
            ((s.data.take 6).length) := by rw [h6]
      _ = s.data.drop (s.data.length - 2) := List.drop_left _ _

/-- C8 (witness): the example id of the claim. -/
theorem derive_join_key_len8_witness :
    (derivePrclIdJoin "060123045601").data.length = 8 ∧
    derivePrclIdJoin "060123045601" = "06012301" :=
  ⟨(derive_join_key_len8 "060123045601" (by decide)).2.1,
   (derive_join_key_len8 "060123045601" (by decide)).2.2.2.2⟩

/-- C9: every blankness test of the guard ladder is equality with the
one-space string, so any other value — the empty string included — counts as
present: the six branch guards are characterized below, and the record with
`mail_addr4 = ""` selects the `mail_addr4` branch. -/
theorem blank_sentinel_guards :
    (∀ o l1 l2 l3 l4 : String,
      (branchTaken o l1 l2 l3 l4 = 1 ↔ l4 ≠ " ") ∧
      (branchTaken o l1 l2 l3 l4 = 2 ↔ (l4 = " " ∧ l3 ≠ " ")) ∧
      (branchTaken o l1 l2 l3 l4 = 3 ↔
        (l4 = " " ∧ l3 = " " ∧ o = "UNITED STATES OF AMERICA")) ∧
      (branchTaken o l1 l2 l3 l4 = 4 ↔
        (l4 = " " ∧ l3 = " " ∧ o ≠ "UNITED STATES OF AMERICA" ∧ o = " ")) ∧
      (branchTaken o l1 l2 l3 l4 = 5 ↔
        (l4 = " " ∧ l3 = " " ∧ o ≠ "UNITED STATES OF AMERICA" ∧ o ≠ " " ∧
          l1 = " ")) ∧
      (branchTaken o l1 l2 l3 l4 = 6 ↔
        (l4 = " " ∧ l3 = " " ∧ o ≠ "UNITED STATES OF AMERICA" ∧ o ≠ " " ∧
          l1 ≠ " "))) ∧
    branchTaken "OWNER" " " " " " " "" = 1 ∧
    ("" : String) ≠ " " := by
  refine ⟨?_, by decide, by decide⟩
  intro o l1 l2 l3 l4
  unfold branchTaken
  split_ifs <;> simp_all

/-- C10: the join-key derivation is total on all strings with no length
precondition: the key always has `min 6 n + min 2 n` characters for an
`n`-character id, and the 3-character id `abc` yields the 5-character key
`abcbc`, its characters reused by both slices. -/
theorem derive_join_key_total :
    (∀ s : String, (derivePrclIdJoin s).data.length =
      min 6 s.data.length + min 2 s.data.length) ∧
    derivePrclIdJoin "abc" = "abcbc" ∧
    derivePrclIdJoin "" = "" ∧
    ("abc" : String).length = 3 ∧ ("abcbc" : String).length = 5 := by
  refine ⟨?_, by decide, by decide, by decide, by decide⟩
  intro s
  show (s.data.take 6 ++ s.data.drop (s.data.length - 2)).length = _
  rw [List.length_append, List.length_take, List.length_drop]
  omega

end ParcelProcessor
